import Mathlib

/-!
Shallow embedding of `main.py` from the HallowTommy/API_GPT repository.

The program is a relay: `POST /chat` (handler `chat_with_gpt`) and a
WebSocket loop (handler `websocket_endpoint`) both send the user text to
a completion API and, on success, pass the generated text to
`generate_tts_audio`, which calls a TTS service and extracts an audio
duration.  Outbound HTTP behaviour is modelled by an `HttpResult` value
supplied by the environment: a response (status code, raw text body, and
the parse of the body as JSON when `response.json()` would succeed) or a
transport-level exception.
-/

namespace ApiGpt

/-- JSON values, as produced by `response.json()` in the Python code.
Numbers are modelled as rationals. -/
inductive Json where
  | null : Json
  | bool : Bool → Json
  | num : ℚ → Json
  | str : String → Json
  | arr : List Json → Json
  | obj : List (String × Json) → Json

/-- Result of one `requests.post` call: either a response object carrying
`status_code`, `text`, and the JSON parse of the body (`none` when
`response.json()` would raise), or a transport-level exception. -/
inductive HttpResult where
  | ok : Nat → String → Option Json → HttpResult
  | transportError : String → HttpResult

/-- Dictionary lookup on the key/value list of a JSON object, as Python
`d[k]` / `d.get(k)` on a dict. -/
def jsonGet (kvs : List (String × Json)) (k : String) : Option Json :=
  match kvs with
  | [] => none
  | (k2, v) :: rest => if k2 = k then some v else jsonGet rest k

/-- Python `j[k]` for a string key: succeeds only on a dict that has the
key; on any other JSON value it raises (TypeError / KeyError). -/
def jsonField (j : Json) (k : String) : Option Json :=
  match j with
  | .obj kvs => jsonGet kvs k
  | _ => none

/-- Python `j[i]` for an integer index: succeeds only on a list that is
long enough. -/
def jsonAt (j : Json) (i : Nat) : Option Json :=
  match j with
  | .arr xs => xs.get? i
  | _ => none

/-- The extraction `response_data["choices"][0]["message"]["content"]`
performed by both handlers; `none` models the KeyError / IndexError /
TypeError raised when the structure is missing. -/
def extractContent (j : Json) : Option Json :=
  (jsonField j ("choices")).bind (fun c =>
    (jsonAt c 0).bind (fun m0 =>
      (jsonField m0 ("message")).bind (fun m => jsonField m ("content"))))

/-- `generate_tts_audio` (main.py lines 155-176): posts the text to the
TTS server and returns `data.get("audio_length", 0)` on a 200 response;
every failure path (non-200 status, transport error, unparseable body,
body that is not a dict) is caught and returns `0`.  The argument is the
answer of the TTS server to this call. -/
def generate_tts_audio (resp : HttpResult) : Json :=
  match resp with
  | .transportError _ => .num 0
  | .ok status _ body =>
    if status = 200 then
      match body with
      | none => .num 0
      | some data =>
        match data with
        | .obj kvs => (jsonGet kvs ("audio_length")).getD (.num 0)
        | _ => .num 0
    else .num 0

/-- Calls recorded by the orchestrator, to state ordering properties. -/
inductive CallEvent where
  | completionCall : CallEvent
  | synthesisCall : CallEvent
deriving DecidableEq, Repr

/-- What `POST /chat` answers: a JSON body
`{"response": text, "audio_length": len}` or an `HTTPException`
(status code, detail string). -/
inductive ChatOutcome where
  | success : Json → Json → ChatOutcome
  | httpError : Nat → String → ChatOutcome

/-- Outcome of the `try` block of `chat_with_gpt` (main.py lines 81-97):
a normal return, an explicitly raised `HTTPException` (line 97), or any
other exception (transport error, `response.json()` failure, extraction
failure). -/
inductive TryOutcome where
  | returned : Json → Json → TryOutcome
  | raisedHttp : Nat → String → TryOutcome
  | raisedOther : TryOutcome

/-- The `try` block of `chat_with_gpt`, instrumented with the list of
outbound calls it makes.  `completion` is the answer of the completion API;
`tts` maps the extracted text to the answer of the TTS server. -/
def chat_try_block (completion : HttpResult) (tts : Json → HttpResult) :
    TryOutcome × List CallEvent :=
  match completion with
  | .transportError _ => (.raisedOther, [.completionCall])
  | .ok status txt body =>
    if status = 200 then
      match body with
      | none => (.raisedOther, [.completionCall])
      | some data =>
        match extractContent data with
        | none => (.raisedOther, [.completionCall])
        | some text =>
          (.returned text (generate_tts_audio (tts text)),
           [.completionCall, .synthesisCall])
    else
      (.raisedHttp status txt, [.completionCall])

/-- `chat_with_gpt` (main.py lines 57-101).  The `except Exception`
handler at line 99 catches every exception raised in the `try` block —
including the `HTTPException` raised at line 97, since
`fastapi.HTTPException` is a subclass of `Exception` — and answers
`HTTPException(500, "Internal server error.")`. -/
def chat_with_gpt (completion : HttpResult) (tts : Json → HttpResult) :
    ChatOutcome × List CallEvent :=
  match chat_try_block completion tts with
  | (.returned text len, tr) => (.success text len, tr)
  | (.raisedHttp _ _, tr) => (.httpError 500 ("Internal server error."), tr)
  | (.raisedOther, tr) => (.httpError 500 ("Internal server error."), tr)

/-- Exceptions at `await` points on the WebSocket, as the two outer
handlers distinguish them: `WebSocketDisconnect` or any other
exception. -/
inductive ExcKind where
  | disconnect : ExcKind
  | other : ExcKind
deriving DecidableEq, Repr

/-- Outcome of one `websocket.receive_text()`: a text message, or an
exception of the given kind. -/
inductive RecvOutcome where
  | msg : String → RecvOutcome
  | exc : ExcKind → RecvOutcome
deriving DecidableEq, Repr

/-- Outcome of one `websocket.send_json(...)`: sent, or an exception of
the given kind. -/
inductive SendOutcome where
  | sent : SendOutcome
  | exc : ExcKind → SendOutcome
deriving DecidableEq, Repr

/-- Environment behaviour for one iteration of the `while True` loop of
`websocket_endpoint` (main.py lines 113-149): the receive outcome, the
outcome of sending `{"processing": true}` (line 118), the completion
API answer (line 136), the TTS server behaviour (line 142), the
outcome of the send at line 144 or 146, and the outcome of the send
inside the inner `except` block (line 149). -/
structure IterEnv where
  recv : RecvOutcome
  procSend : SendOutcome
  completion : HttpResult
  tts : Json → HttpResult
  resultSend : SendOutcome
  errSend : SendOutcome

/-- JSON frames the server sends on the socket: `{"processing": true}`,
`{"response": text, "audio_length": len}`, or `{"error": msg}`. -/
inductive Frame where
  | processing : Frame
  | result : Json → Json → Frame
  | errorFrame : String → Frame

/-- How the connection handler finished: the outer
`except WebSocketDisconnect` (line 150), the outer `except Exception`
(line 152), or the supplied event list ran out with the loop still
open. -/
inductive LoopEnd where
  | disconnected : LoopEnd
  | crashed : LoopEnd
  | stillOpen : LoopEnd
deriving DecidableEq, Repr

/-- Maps an exception escaping the loop body to the outer handler that
ends the loop. -/
def endOf (k : ExcKind) : LoopEnd :=
  match k with
  | .disconnect => .disconnected
  | .other => .crashed

/-- The inner `try` of one iteration (main.py lines 135-149), entered
after the `{"processing": true}` frame was sent.  Returns the frames
sent and, when an exception escapes the inner `except` handler itself,
the loop-ending outcome.  `except Exception` at line 147 catches any
exception from lines 136-146 (including a `WebSocketDisconnect` raised
by the sends there); an exception while sending the
`{"error": "Internal server error."}` frame propagates to the outer
handlers. -/
def ws_inner (env : IterEnv) : List Frame × Option LoopEnd :=
  let innerExcept : List Frame × Option LoopEnd :=
    match env.errSend with
    | .sent => ([.errorFrame ("Internal server error.")], none)
    | .exc k => ([], some (endOf k))
  match env.completion with
  | .transportError _ => innerExcept
  | .ok status txt body =>
    if status = 200 then
      match body with
      | none => innerExcept
      | some data =>
        match extractContent data with
        | none => innerExcept
        | some text =>
          let len := generate_tts_audio (env.tts text)
          match env.resultSend with
          | .sent => ([.result text len], none)
          | .exc _ => innerExcept
    else
      match env.resultSend with
      | .sent => ([.errorFrame txt], none)
      | .exc _ => innerExcept

/-- One iteration of the `while True` loop: receive (line 114), send the
`{"processing": true}` frame (line 118), then the inner `try`.  The
receive and the processing-signal send are outside the inner `try`, so
an exception there escapes straight to the outer handlers. -/
def ws_iter (env : IterEnv) : List Frame × Option LoopEnd :=
  match env.recv with
  | .exc k => ([], some (endOf k))
  | .msg _ =>
    match env.procSend with
    | .exc k => ([], some (endOf k))
    | .sent =>
      match ws_inner env with
      | (fs, term) => (.processing :: fs, term)

/-- `websocket_endpoint` (main.py lines 104-153): runs the loop over the
supplied per-iteration environment behaviours, collecting every frame
sent, until an exception ends the loop (or the supplied behaviours run
out, the session then being still open). -/
def websocket_endpoint : List IterEnv → List Frame × LoopEnd
  | [] => ([], .stillOpen)
  | env :: rest =>
    match ws_iter env with
    | (fs, some e) => (fs, e)
    | (fs, none) =>
      match websocket_endpoint rest with
      | (fs2, e) => (fs ++ fs2, e)

/-- Python truthiness of the result of `os.getenv`: `None` and the empty
string are falsy. -/
def truthy : Option String → Bool
  | none => false
  | some s => !s.isEmpty

/-- The module-level configuration check (main.py lines 14-22):
`if OPENAI_API_KEY and TTS_SERVER_URL` logs success, otherwise the
module raises `RuntimeError`, aborting startup. -/
def startup_check (key url : Option String) : Except String Unit :=
  if truthy key && truthy url then
    .ok ()
  else
    .error ("Both OPENAI_API_KEY and TTS_SERVER_URL are required to run the server.")

/-- The failure modes of one TTS call, following the branches of
`generate_tts_audio`: transport error, non-200 status, unparseable body,
body that is not a dict, or dict without an `"audio_length"` entry. -/
def ttsFailure : HttpResult → Bool
  | .transportError _ => true
  | .ok status _ body =>
    if status = 200 then
      match body with
      | none => true
      | some data =>
        match data with
        | .obj kvs => (jsonGet kvs ("audio_length")).isNone
        | _ => true
    else true

/-- The failure modes of one completion call as the handlers see them:
a transport error or a non-200 status. -/
def completionFailure : HttpResult → Bool
  | .transportError _ => true
  | .ok status _ _ => !(status == 200)

/-- Whether the inner `try` of one loop iteration raises, entering the
inner `except Exception` handler at main.py line 147. -/
def ws_inner_raises (env : IterEnv) : Bool :=
  match env.completion with
  | .transportError _ => true
  | .ok status _ body =>
    if status = 200 then
      match body with
      | none => true
      | some data =>
        match extractContent data with
        | none => true
        | some _ =>
          match env.resultSend with
          | .sent => false
          | .exc _ => true
    else
      match env.resultSend with
      | .sent => false
      | .exc _ => true

/-- On every failure mode, `generate_tts_audio` returns the sentinel
duration `0`. -/
theorem generate_tts_audio_of_failure (r : HttpResult) (h : ttsFailure r = true) :
    generate_tts_audio r = .num 0 := by
  cases r with
  | transportError m => rfl
  | ok status txt body =>
    unfold ttsFailure at h
    unfold generate_tts_audio
    by_cases hs : status = 200
    · subst hs
      simp only [if_pos rfl] at h ⊢
      cases body with
      | none => rfl
      | some data => cases data <;> simp_all [Option.isNone_iff_eq_none]
    · simp [hs]

/-- On a 200 response whose body is a dict with an `"audio_length"`
entry, `generate_tts_audio` returns that entry unchanged. -/
theorem generate_tts_audio_of_success (txt : String) (kvs : List (String × Json))
    (dur : Json) (h : jsonGet kvs ("audio_length") = some dur) :
    generate_tts_audio (.ok 200 txt (some (.obj kvs))) = dur := by
  unfold generate_tts_audio
  simp [h]

/-- Every TTS answer is either a failure mode or a 200 response carrying
an `"audio_length"` entry. -/
theorem tts_cases (r : HttpResult) :
    ttsFailure r = true ∨
      ∃ txt kvs dur, r = .ok 200 txt (some (.obj kvs)) ∧
        jsonGet kvs ("audio_length") = some dur := by
  cases r with
  | transportError m => exact Or.inl rfl
  | ok status txt body =>
    by_cases hs : status = 200
    · subst hs
      cases body with
      | none => exact Or.inl rfl
      | some data =>
        cases data with
        | obj kvs =>
          cases hg : jsonGet kvs ("audio_length") with
          | none => exact Or.inl (by simp [ttsFailure, hg])
          | some v => exact Or.inr ⟨txt, kvs, v, rfl, hg⟩
        | null => exact Or.inl rfl
        | bool b => exact Or.inl rfl
        | num q => exact Or.inl rfl
        | str s => exact Or.inl rfl
        | arr xs => exact Or.inl rfl
    · exact Or.inl (by simp [ttsFailure, hs])

/-- When the inner `try` raises and the error-frame send succeeds, the
iteration sends the generic error frame and the loop continues. -/
theorem ws_inner_of_raises (env : IterEnv) (h : ws_inner_raises env = true)
    (he : env.errSend = .sent) :
    ws_inner env = ([.errorFrame ("Internal server error.")], none) := by
  rcases hc : env.completion with ⟨status, txt, body⟩ | m
  · by_cases hs : status = 200
    · subst hs
      cases body with
      | none => simp [ws_inner, hc, he]
      | some data =>
        cases hx : extractContent data with
        | none => simp [ws_inner, hc, hx, he]
        | some t =>
          cases hr : env.resultSend with
          | sent => simp [ws_inner_raises, hc, hx, hr] at h
          | exc k => simp [ws_inner, hc, hx, hr, he]
    · cases hr : env.resultSend with
      | sent => simp [ws_inner_raises, hc, hs, hr] at h
      | exc k => simp [ws_inner, hc, hs, hr, he]
  · simp [ws_inner, hc, he]

/-- C3: when the completion call returns 200 with extractable message
text and the TTS call returns 200 with an `"audio_length"` value, both
the single-shot handler and one WebSocket iteration deliver
`{"response": completion text, "audio_length": synthesis duration}`. -/
theorem handleExchange_success (ctext : String) (data t : Json)
    (tts : Json → HttpResult) (ttxt : String) (kvs : List (String × Json))
    (dur : Json) (s : String) (errS : SendOutcome)
    (hx : extractContent data = some t)
    (ht : tts t = .ok 200 ttxt (some (.obj kvs)))
    (hd : jsonGet kvs ("audio_length") = some dur) :
    (chat_with_gpt (.ok 200 ctext (some data)) tts).1 = .success t dur ∧
    ws_iter ⟨.msg s, .sent, .ok 200 ctext (some data), tts, .sent, errS⟩ =
      ([.processing, .result t dur], none) := by
  have hg : generate_tts_audio (tts t) = dur := by
    rw [ht]; exact generate_tts_audio_of_success ttxt kvs dur hd
  constructor
  · simp [chat_with_gpt, chat_try_block, hx, hg]
  · simp [ws_iter, ws_inner, hx, hg]

/-- Witness for C3: the scenario with completion text `"hi there"` and
synthesis duration `2.5`. -/
theorem handleExchange_success_witness :
    (chat_with_gpt (.ok 200 ("") (some (.obj [("choices",
        .arr [.obj [("message", .obj [("content", .str ("hi there"))])]])])))
        (fun _ => .ok 200 ("") (some (.obj [("audio_length", .num (5/2))])))).1 =
      .success (.str ("hi there")) (.num (5/2)) ∧
    ws_iter ⟨.msg ("hello"), .sent, .ok 200 ("") (some (.obj [("choices",
        .arr [.obj [("message", .obj [("content", .str ("hi there"))])]])])),
        fun _ => .ok 200 ("") (some (.obj [("audio_length", .num (5/2))])),
        .sent, .sent⟩ =
      ([.processing, .result (.str ("hi there")) (.num (5/2))], none) :=
  handleExchange_success _ _ _ _ _ _ _ _ _ rfl rfl rfl

/-- C4: when the completion call succeeds but the TTS call fails in any
of its failure modes, both surfaces still deliver the completion text,
paired with duration `0`. -/
theorem synthesis_failure_keeps_text (ctext : String) (data t : Json)
    (tts : Json → HttpResult) (s : String) (errS : SendOutcome)
    (hx : extractContent data = some t)
    (hf : ttsFailure (tts t) = true) :
    (chat_with_gpt (.ok 200 ctext (some data)) tts).1 = .success t (.num 0) ∧
    ws_iter ⟨.msg s, .sent, .ok 200 ctext (some data), tts, .sent, errS⟩ =
      ([.processing, .result t (.num 0)], none) := by
  have hg : generate_tts_audio (tts t) = .num 0 :=
    generate_tts_audio_of_failure _ hf
  exact ⟨by simp [chat_with_gpt, chat_try_block, hx, hg],
         by simp [ws_iter, ws_inner, hx, hg]⟩

/-- Witness for C4: the TTS server answers 500, the exchange still
returns the text with duration `0`. -/
theorem synthesis_failure_keeps_text_witness :
    (chat_with_gpt (.ok 200 ("") (some (.obj [("choices",
        .arr [.obj [("message", .obj [("content", .str ("hi there"))])]])])))
        (fun _ => .ok 500 ("tts down") none)).1 =
      .success (.str ("hi there")) (.num 0) ∧
    ws_iter ⟨.msg ("hello"), .sent, .ok 200 ("") (some (.obj [("choices",
        .arr [.obj [("message", .obj [("content", .str ("hi there"))])]])])),
        fun _ => .ok 500 ("tts down") none, .sent, .sent⟩ =
      ([.processing, .result (.str ("hi there")) (.num 0)], none) :=
  synthesis_failure_keeps_text _ _ _ _ _ _ rfl rfl

/-- C5: when the completion call fails (transport error or non-200
status), `POST /chat` answers a server-error status (500) and the TTS
client is never invoked; moreover every exchange records the completion
call first, so any synthesis call strictly follows it. -/
theorem completion_failure_no_synthesis (c : HttpResult)
    (tts : Json → HttpResult) (h : completionFailure c = true) :
    (chat_with_gpt c tts).1 = .httpError 500 ("Internal server error.") ∧
    CallEvent.synthesisCall ∉ (chat_with_gpt c tts).2 ∧
    ∀ (c2 : HttpResult) (tts2 : Json → HttpResult),
      (chat_with_gpt c2 tts2).2 = [CallEvent.completionCall] ∨
      (chat_with_gpt c2 tts2).2 =
        [CallEvent.completionCall, CallEvent.synthesisCall] := by
  have key : chat_with_gpt c tts =
      (.httpError 500 ("Internal server error."), [CallEvent.completionCall]) := by
    rcases c with ⟨status, txt, body⟩ | m
    · have hs : status ≠ 200 := by simpa [completionFailure] using h
      simp [chat_with_gpt, chat_try_block, hs]
    · simp [chat_with_gpt, chat_try_block]
  refine ⟨by rw [key], by rw [key]; simp, ?_⟩
  intro c2 tts2
  rcases c2 with ⟨status, txt, body⟩ | m
  · by_cases hs : status = 200
    · subst hs
      cases body with
      | none => exact Or.inl (by simp [chat_with_gpt, chat_try_block])
      | some data =>
        cases hx : extractContent data with
        | none => exact Or.inl (by simp [chat_with_gpt, chat_try_block, hx])
        | some t => exact Or.inr (by simp [chat_with_gpt, chat_try_block, hx])
    · exact Or.inl (by simp [chat_with_gpt, chat_try_block, hs])
  · exact Or.inl (by simp [chat_with_gpt, chat_try_block])

/-- Witness for C5: a 429 completion answer yields the server error and
a trace without any synthesis call. -/
theorem completion_failure_no_synthesis_witness :
    (chat_with_gpt (.ok 429 ("quota") none) (fun _ => .transportError (""))).1 =
      .httpError 500 ("Internal server error.") ∧
    CallEvent.synthesisCall ∉
      (chat_with_gpt (.ok 429 ("quota") none) (fun _ => .transportError (""))).2 :=
  ⟨(completion_failure_no_synthesis (.ok 429 ("quota") none)
      (fun _ => .transportError ("")) rfl).1,
   (completion_failure_no_synthesis (.ok 429 ("quota") none)
      (fun _ => .transportError ("")) rfl).2.1⟩

/-- C7: `generate_tts_audio` is total towards its caller: on every
failure mode it returns the sentinel `0`, on a 200 answer carrying an
`"audio_length"` entry it returns that entry, and every possible TTS
answer falls into one of those two cases — no behaviour of the TTS
service propagates an exception. -/
theorem generate_tts_audio_total (r : HttpResult) :
    (ttsFailure r = true → generate_tts_audio r = .num 0) ∧
    (∀ txt kvs dur, r = .ok 200 txt (some (.obj kvs)) →
        jsonGet kvs ("audio_length") = some dur → generate_tts_audio r = dur) ∧
    (ttsFailure r = true ∨
      ∃ txt kvs dur, r = .ok 200 txt (some (.obj kvs)) ∧
        jsonGet kvs ("audio_length") = some dur) := by
  refine ⟨generate_tts_audio_of_failure r, ?_, tts_cases r⟩
  intro txt kvs dur hr hd
  subst hr
  exact generate_tts_audio_of_success txt kvs dur hd

/-- Witness for C7: a success case returns the supplied duration, a
failure case returns `0`. -/
theorem generate_tts_audio_total_witness :
    generate_tts_audio
        (.ok 200 ("") (some (.obj [("audio_length", .num (5/2))]))) = .num (5/2) ∧
    generate_tts_audio (.ok 404 ("boom") none) = .num 0 :=
  ⟨(generate_tts_audio_total _).2.1 ("") [("audio_length", .num (5/2))]
      (.num (5/2)) rfl rfl,
   (generate_tts_audio_total _).1 rfl⟩

/-- C9: a 200 completion answer whose body lacks the
`choices[0].message.content` path does not crash `POST /chat`: the
handler answers 500 with the fixed detail `"Internal server error."`,
whatever the malformed body was. -/
theorem chat_malformed_completion_body (ctext : String) (data : Json)
    (tts : Json → HttpResult) (h : extractContent data = none) :
    (chat_with_gpt (.ok 200 ctext (some data)) tts).1 =
      .httpError 500 ("Internal server error.") := by
  simp [chat_with_gpt, chat_try_block, h]

/-- Witness for C9: a 200 body with an unexpected shape. -/
theorem chat_malformed_completion_body_witness :
    (chat_with_gpt (.ok 200 ("weird") (some (.obj [("unexpected", .str ("shape"))])))
        (fun _ => .transportError (""))).1 =
      .httpError 500 ("Internal server error.") :=
  chat_malformed_completion_body _ _ _ rfl

/-- C10: on a 200 TTS answer whose body is a dict with an
`"audio_length"` key, `generate_tts_audio` returns that value exactly
as supplied, with no validation or conversion, and `POST /chat` delivers
it in the response — whatever JSON value it is. -/
theorem tts_audio_length_passthrough (ttxt : String)
    (kvs : List (String × Json)) (v : Json)
    (h : jsonGet kvs ("audio_length") = some v) :
    generate_tts_audio (.ok 200 ttxt (some (.obj kvs))) = v ∧
    ∀ (ctext : String) (data t : Json) (tts : Json → HttpResult),
      extractContent data = some t →
      tts t = .ok 200 ttxt (some (.obj kvs)) →
      (chat_with_gpt (.ok 200 ctext (some data)) tts).1 = .success t v := by
  constructor
  · exact generate_tts_audio_of_success ttxt kvs v h
  · intro ctext data t tts hx ht
    have hg : generate_tts_audio (tts t) = v := by
      rw [ht]; exact generate_tts_audio_of_success ttxt kvs v h
    simp [chat_with_gpt, chat_try_block, hx, hg]

/-- Witness for C10: the TTS service answers a string where a number is
expected, and that string reaches the response unchanged. -/
theorem tts_audio_length_passthrough_witness :
    generate_tts_audio
        (.ok 200 ("") (some (.obj [("audio_length", .str ("oops"))]))) =
      .str ("oops") ∧
    (chat_with_gpt (.ok 200 ("") (some (.obj [("choices",
        .arr [.obj [("message", .obj [("content", .str ("hi there"))])]])])))
        (fun _ => .ok 200 ("") (some (.obj [("audio_length", .str ("oops"))])))).1 =
      .success (.str ("hi there")) (.str ("oops")) :=
  ⟨(tts_audio_length_passthrough ("") [("audio_length", .str ("oops"))]
      (.str ("oops")) rfl).1,
   (tts_audio_length_passthrough ("") [("audio_length", .str ("oops"))]
      (.str ("oops")) rfl).2 _ _ _ _ rfl rfl⟩

/-- C6: when the completion call on a WebSocket session answers a
non-200 status, the session sends the error frame `{"error": response.text}`
and the loop goes on to process the remaining messages. -/
theorem session_completion_failure_continues (s ttxt : String) (status : Nat)
    (body : Option Json) (tts : Json → HttpResult) (errS : SendOutcome)
    (rest : List IterEnv) (hst : status ≠ 200) :
    websocket_endpoint
        (⟨.msg s, .sent, .ok status ttxt body, tts, .sent, errS⟩ :: rest) =
      (Frame.processing :: Frame.errorFrame ttxt ::
        (websocket_endpoint rest).1, (websocket_endpoint rest).2) := by
  have hi : ws_iter ⟨.msg s, .sent, .ok status ttxt body, tts, .sent, errS⟩ =
      ([.processing, .errorFrame ttxt], none) := by
    simp [ws_iter, ws_inner, hst]
  rcases hr : websocket_endpoint rest with ⟨fs2, e⟩
  simp [websocket_endpoint, hi, hr]

/-- Witness for C6: a 429 answer produces an error frame and leaves the
session open. -/
theorem session_completion_failure_continues_witness :
    websocket_endpoint
        [⟨.msg ("hello"), .sent, .ok 429 ("rate limit hit") none,
          fun _ => .transportError (""), .sent, .sent⟩] =
      ([Frame.processing, Frame.errorFrame ("rate limit hit")], .stillOpen) := by
  have h := session_completion_failure_continues ("hello") ("rate limit hit") 429
    none (fun _ => .transportError ("")) .sent [] (by decide)
  simpa [websocket_endpoint] using h

/-- Counterexample to C2 as stated: in the first iteration the
processing-signal send (main.py line 118, outside the inner `try`)
raises a non-disconnect exception; the loop does not continue — the
queued second message is never processed — and the connection handler
ends although no peer disconnect was detected. -/
theorem session_crash_without_disconnect :
    websocket_endpoint
        [⟨.msg ("hi"), .exc .other, .ok 200 ("") none,
          fun _ => .transportError (""), .sent, .sent⟩,
         ⟨.msg ("second"), .sent, .ok 200 ("") none,
          fun _ => .transportError (""), .sent, .sent⟩] =
      ([], .crashed) ∧ LoopEnd.crashed ≠ LoopEnd.disconnected :=
  ⟨rfl, by decide⟩

/-- C2 (amended): a failure raised inside the per-message processing
block (completion call, response parsing, synthesis handling, the sends
of the result or upstream-error frame) is caught: the session sends the
generic error frame and the loop continues with the next message; a
disconnect detected at the receive ends the loop cleanly.  (A
non-disconnect failure at the receive, at the processing-signal send, or
while sending the generic error frame itself is outside that boundary
and ends the loop.) -/
theorem session_error_boundary (env : IterEnv) (rest : List IterEnv)
    (s : String) (hrecv : env.recv = .msg s) (hproc : env.procSend = .sent)
    (hfail : ws_inner_raises env = true) (herr : env.errSend = .sent) :
    websocket_endpoint (env :: rest) =
      (Frame.processing :: Frame.errorFrame ("Internal server error.") ::
        (websocket_endpoint rest).1, (websocket_endpoint rest).2) ∧
    websocket_endpoint ({ env with recv := .exc .disconnect } :: rest) =
      ([], .disconnected) := by
  constructor
  · have hi : ws_iter env =
        ([.processing, .errorFrame ("Internal server error.")], none) := by
      simp [ws_iter, hrecv, hproc, ws_inner_of_raises env hfail herr]
    rcases hr : websocket_endpoint rest with ⟨fs2, e⟩
    simp [websocket_endpoint, hi, hr]
  · simp [websocket_endpoint, ws_iter, endOf]

/-- Witness for C2 (amended): the completion call raises a transport
error; the session answers with the generic error frame and stays open,
while a disconnect at the same point would have ended the loop
cleanly. -/
theorem session_error_boundary_witness :
    websocket_endpoint
        [⟨.msg ("hello"), .sent, .transportError ("connection reset"),
          fun _ => .transportError (""), .sent, .sent⟩] =
      ([Frame.processing, Frame.errorFrame ("Internal server error.")],
        .stillOpen) ∧
    websocket_endpoint
        [⟨.exc .disconnect, .sent, .transportError ("connection reset"),
          fun _ => .transportError (""), .sent, .sent⟩] =
      ([], .disconnected) := by
  have h := session_error_boundary
    ⟨.msg ("hello"), .sent, .transportError ("connection reset"),
      fun _ => .transportError (""), .sent, .sent⟩ [] ("hello") rfl rfl rfl rfl
  exact ⟨by simpa [websocket_endpoint] using h.1, h.2⟩

/-- C1 (evaluation at the failing input): the completion service answers
status 429 with body text `"rate limited"`; `POST /chat` answers 500
with the fixed detail `"Internal server error."`, which does not contain
the upstream detail — the `HTTPException(429, response.text)` raised at
main.py line 97 is caught by the `except Exception` handler at line 99,
because `fastapi.HTTPException` is a subclass of `Exception`. -/
theorem chat_upstream_detail_swallowed :
    (chat_with_gpt (.ok 429 ("rate limited") none)
        (fun _ => .transportError (""))).1 =
      .httpError 500 ("Internal server error.") ∧
    ¬ List.IsInfix (("rate limited").data) (("Internal server error.").data) :=
  ⟨rfl, by decide⟩

/-- Auxiliary: Python truthiness of an optional string holds exactly for
a present, non-empty string. -/
theorem truthy_iff (o : Option String) :
    truthy o = true ↔ ∃ s, o = some s ∧ s ≠ ("") := by
  cases o with
  | none => simp [truthy]
  | some a =>
    have ha : a.isEmpty = false ↔ ¬ a = ("") := by
      rw [← String.isEmpty_iff]
      cases a.isEmpty <;> simp
    simp [truthy, ha]

/-- Auxiliary: the startup check succeeds exactly when the `if` guard of
main.py line 18 is true. -/
theorem startup_check_ok_iff (key url : Option String) :
    startup_check key url = .ok () ↔ (truthy key && truthy url) = true := by
  unfold startup_check
  cases h : (truthy key && truthy url) <;> simp [h]

/-- Counterexample to C8 as stated: both configuration values are
present (the key is set, to the empty string), yet the module raises
`RuntimeError` and startup aborts. -/
theorem startup_present_but_empty :
    (some ("") : Option String).isSome = true ∧
    (some ("http://tts") : Option String).isSome = true ∧
    startup_check (some ("")) (some ("http://tts")) =
      .error ("Both OPENAI_API_KEY and TTS_SERVER_URL are required to run the server.") :=
  ⟨rfl, rfl, rfl⟩

/-- C8 (amended): startup aborts when either configuration value is
unset, and also when either is set to the empty string (the check uses
Python truthiness); it proceeds exactly when both are set and
non-empty. -/
theorem startup_check_characterization (key url : Option String) :
    ((key = none ∨ url = none) → startup_check key url =
      .error ("Both OPENAI_API_KEY and TTS_SERVER_URL are required to run the server.")) ∧
    (startup_check key url = .ok () ↔
      ((∃ s, key = some s ∧ s ≠ ("")) ∧ (∃ s, url = some s ∧ s ≠ ("")))) := by
  constructor
  · intro hn
    have hf : (truthy key && truthy url) = false := by
      rcases hn with hk | hu
      · subst hk; rfl
      · subst hu; cases truthy key <;> rfl
    simp [startup_check, hf]
  · rw [startup_check_ok_iff, Bool.and_eq_true, truthy_iff, truthy_iff]

/-- Witness for C8 (amended): a missing key aborts startup; a present
non-empty pair proceeds. -/
theorem startup_check_characterization_witness :
    startup_check none (some ("http://tts")) =
      .error ("Both OPENAI_API_KEY and TTS_SERVER_URL are required to run the server.") ∧
    startup_check (some ("sk-1")) (some ("http://tts")) = .ok () :=
  ⟨(startup_check_characterization none (some ("http://tts"))).1 (Or.inl rfl),
   (startup_check_characterization (some ("sk-1")) (some ("http://tts"))).2.mpr
     ⟨⟨("sk-1"), rfl, by decide⟩, ⟨("http://tts"), rfl, by decide⟩⟩⟩

end ApiGpt
